import Mathlib

set_option linter.unusedVariables false

/-!
Verification development for the LibreDWG SVG renderer
(`programs/dwg2SVG.c` and `src/dwg_svg_api.c`).

C `double` values are modelled by the type `D` below: either NaN or an exact
rational.  Rational arithmetic stands in for IEEE binary arithmetic; every
fact proved here depends only on exact identities of the emitted expressions,
never on rounding behaviour.  Infinities do not occur on the modelled paths
(the only divisions are NaN-guarded and the extents machinery is not
modelled), so `D` does not carry them; division by zero is mapped to NaN.

SVG output is modelled as an abstract syntax of fragments (`Frag`, `PCmd`)
rather than as strings: each `printf` of a geometric element in the C source
corresponds to one fragment carrying exactly the numeric payloads that are
interpolated into the format string.
-/

/-- A C `double`: NaN or a finite rational. -/
inductive D where
  | nan : D
  | num (q : ℚ) : D
deriving DecidableEq, Repr

/-- C `isnan`. -/
def D.isnan : D → Bool
  | .nan => true
  | .num _ => false

/-- Addition with NaN propagation. -/
def D.add : D → D → D
  | .num a, .num b => .num (a + b)
  | _, _ => .nan

/-- Subtraction with NaN propagation. -/
def D.sub : D → D → D
  | .num a, .num b => .num (a - b)
  | _, _ => .nan

/-- Multiplication with NaN propagation. -/
def D.mul : D → D → D
  | .num a, .num b => .num (a * b)
  | _, _ => .nan

/-- Division with NaN propagation; division by zero is mapped to NaN
(no finite value is emitted for it on the modelled code paths). -/
def D.div : D → D → D
  | .num a, .num b => if b = 0 then .nan else .num (a / b)
  | _, _ => .nan

/-- Negation with NaN propagation. -/
def D.neg : D → D
  | .num a => .num (-a)
  | .nan => .nan

/-- C `fabs` with NaN propagation. -/
def D.fabs : D → D
  | .num a => .num |a|
  | .nan => .nan

instance : Add D := ⟨D.add⟩
instance : Sub D := ⟨D.sub⟩
instance : Mul D := ⟨D.mul⟩
instance : Neg D := ⟨D.neg⟩

/-- The C comparison `fabs(d) < c` (false when `d` is NaN, as in IEEE). -/
def D.absLt (d : D) (c : ℚ) : Bool :=
  match d with
  | .num a => decide (|a| < c)
  | .nan => false

/-- The C comparison `fabs(d) > c` (false when `d` is NaN, as in IEEE). -/
def D.absGt (d : D) (c : ℚ) : Bool :=
  match d with
  | .num a => decide (c < |a|)
  | .nan => false

/-- The C comparison `d > 0` (false when `d` is NaN, as in IEEE). -/
def D.gtZero (d : D) : Bool :=
  match d with
  | .num a => decide (0 < a)
  | .nan => false

/-- C `sqrt` on `D`.  The finite value is a rational stand-in
(`Rat.sqrt`); no theorem below depends on the finite value, only on the
NaN behaviour: NaN and negative arguments give NaN, non-negative finite
arguments give a finite result, exactly as IEEE `sqrt`. -/
def D.sqrtD : D → D
  | .nan => .nan
  | .num q => if q < 0 then .nan else .num (Rat.sqrt q)

/-- A 2D point of doubles (`BITCODE_2DPOINT` / `dwg_point_2d`). -/
structure Pt2 where
  x : D
  y : D
deriving DecidableEq, Repr

/-- A 3D point of doubles (`BITCODE_3DPOINT`). -/
structure Pt3 where
  x : D
  y : D
  z : D
deriving DecidableEq, Repr

/-- dwg2SVG.c `isnan_2BD`. -/
def isnan_2BD (pt : Pt2) : Bool := pt.x.isnan || pt.y.isnan

/-- dwg2SVG.c `isnan_2pt` (same test on `dwg_point_2d`). -/
def isnan_2pt (pt : Pt2) : Bool := pt.x.isnan || pt.y.isnan

/-- dwg2SVG.c `isnan_3BD`. -/
def isnan_3BD (pt : Pt3) : Bool := pt.x.isnan || pt.y.isnan || pt.z.isnan

/-- Modelled from the spec: the OCS→WCS projection `transform_OCS`
(`geom.h`, not part of this repository's sources; the spec calls it the
"arbitrary-axis algorithm" black box).  The two exactly axis-aligned
branches are modelled: extrusion `(0,0,1)` is the identity and
`(0,0,-1)` negates x and z.  The general rotated-basis branch requires
irrational arithmetic and is outside the rational model; it is mapped to
the input unchanged, and every theorem touching OCS-projected geometry
carries an axis-aligned-extrusion hypothesis so that this branch is never
relied upon. -/
def transform_OCS (pt ext : Pt3) : Pt3 :=
  if ext = ⟨D.num 0, D.num 0, D.num 1⟩ then pt
  else if ext = ⟨D.num 0, D.num 0, D.num (-1)⟩ then ⟨pt.x.neg, pt.y, pt.z.neg⟩
  else pt

/-- Modelled from the spec: 2D variant `transform_OCS_2d` (`geom.h`, not in
this repository's sources), with the same branch structure as
`transform_OCS`. -/
def transform_OCS_2d (pt : Pt2) (ext : Pt3) : Pt2 :=
  if ext = ⟨D.num 0, D.num 0, D.num 1⟩ then pt
  else if ext = ⟨D.num 0, D.num 0, D.num (-1)⟩ then ⟨pt.x.neg, pt.y⟩
  else pt

/-- The viewport parameters of dwg2SVG.c: the file-scope `model_xmin`,
`model_ymin` and `page_height` globals.  They are produced by the extents
pass as finite doubles (with finite fallbacks), hence modelled as exact
rationals. -/
structure View where
  model_xmin : ℚ
  model_ymin : ℚ
  page_height : ℚ
deriving DecidableEq, Repr

/-- dwg2SVG.c `transform_X`.  The file-scope flag `in_block_definition` is
passed explicitly as `inBlock`. -/
def transform_X (v : View) (inBlock : Bool) (x : D) : D :=
  if inBlock then x else x - D.num v.model_xmin

/-- dwg2SVG.c `transform_Y`. -/
def transform_Y (v : View) (inBlock : Bool) (y : D) : D :=
  if inBlock then y else D.num v.page_height - (y - D.num v.model_ymin)

/-- The layer data consulted by dwg2SVG.c (`Dwg_Object_LAYER`): the `off`
and `frozen` bits and the lineweight code.  An entity whose layer
reference is unresolved, or resolves to a non-LAYER object, is modelled
with `layer = none` (the C code treats those cases exactly like a missing
layer). -/
structure Layer where
  off : Bool
  frozen : Bool
  linewt : Int
deriving DecidableEq, Repr

/-- The common entity data consulted by the emitters (`Dwg_Object_Entity`):
the `invisible` flag (nonzero BS modelled as a Bool) and the resolved
layer. -/
structure EntityCommon where
  invisible : Bool
  layer : Option Layer
deriving DecidableEq, Repr

/-- dwg2SVG.c `entity_invisible`: the entity's own invisible flag, else its
layer being off or frozen. -/
def entity_invisible (e : EntityCommon) : Bool :=
  e.invisible ||
    match e.layer with
    | some l => l.off || l.frozen
    | none => false

/-- Modelled from the spec: `dxf_cvt_lweight` (part of the dwg_api library,
not of this repository's sources; §6 of the spec: "decoded mm×100
lineweight").  The fixed table is the standard DXF lineweight enumeration
in 100ths of a millimetre; codes 29/30/31 decode to the ByLayer / ByBlock
/ default markers −1/−2/−3.  The index is taken modulo 32 as in the C
implementation. -/
def dxf_cvt_lweight (value : Int) : Int :=
  [0, 5, 9, 13, 15, 18, 20, 25, 30, 35, 40, 50, 53, 60,
   70, 80, 90, 100, 106, 120, 140, 158, 200, 211,
   0, 0, 0, 0, 0, -1, -2, -3].getD (value.emod 32).natAbs 0

/-- Truncation of a rational toward zero, the effect of the C conversion
from `double` to `int`. -/
def ratTrunc (q : ℚ) : Int := Int.tdiv q.num q.den

/-- dwg2SVG.c `entity_lweight`, the stroke width in px.  The C local `lw`
is an `int`; the line `lw = (double)(lw * 0.001);` therefore converts the
product back to `int`, truncating toward zero.  `linewt` is the entity's
lineweight code; `layer` its resolved layer. -/
def entity_lweight (linewt : Int) (layer : Option Layer) : ℚ :=
  let lw := dxf_cvt_lweight linewt
  let lw :=
    if lw = -1 then
      match layer with
      | some l => dxf_cvt_lweight l.linewt
      | none => lw
    else lw
  if lw ≤ 0 then 1/10
  else
    let lw2 : Int := ratTrunc ((lw : ℚ) * (1/1000))
    if (lw2 : ℚ) ≤ 1/10 then 1/10 else (lw2 : ℚ)

/-- Path-data commands, one per `printf` piece of a `d="..."` attribute. -/
inductive PCmd where
  | move (x y : D)
  | lineTo (x y : D)
  | arcTo (rx ry : D) (large sweep : Bool) (x y : D)
  | close
deriving DecidableEq, Repr

/-- SVG output fragments, one per emitted element / comment.  Each carries
the numeric payloads that the C `printf` interpolates. -/
inductive Frag where
  | comment (s : String)
  | gOpen (ref : Nat)
  | gClose
  | pathLine (a b c d : D)
  | circle (cx cy r : D)
  | polygon (pts : List (Pt2))
  | path (cmds : List PCmd)
  | useMat (a d e f : D) (href : Nat)
  | useTRS (tx ty deg sx sy : D) (href : Nat)
  | wrongInsert
deriving DecidableEq, Repr

/-- `Dwg_Entity_LINE`: start, end and extrusion. -/
structure LineEnt where
  start : Pt3
  end_ : Pt3
  extrusion : Pt3
deriving DecidableEq, Repr

/-- dwg2SVG.c `output_LINE`: NaN-guard start/end/extrusion and visibility,
OCS-project, then emit `M a,b L c,d` through the viewport transform. -/
def output_LINE (v : View) (inBlock : Bool) (e : EntityCommon)
    (line : LineEnt) : Option Frag :=
  if isnan_3BD line.start || isnan_3BD line.end_ || isnan_3BD line.extrusion
      || entity_invisible e then none
  else
    let start := transform_OCS line.start line.extrusion
    let en := transform_OCS line.end_ line.extrusion
    some (Frag.pathLine (transform_X v inBlock start.x)
      (transform_Y v inBlock start.y)
      (transform_X v inBlock en.x)
      (transform_Y v inBlock en.y))

/-- C1.  Outside block-definition mode the emitted LINE coordinates are the
viewport transform of the WCS endpoints: `a = x1 − xmin`,
`b = page_height − (y1 − ymin)`, `c = x2 − xmin`,
`d = page_height − (y2 − ymin)`; in block-definition mode the transform is
the identity and the raw coordinates are written.  The extrusion is the
axis-aligned `(0,0,1)`, under which the OCS projection is the identity and
the stored endpoints are the WCS endpoints. -/
theorem c1_line_viewport_transform (v : View) (e : EntityCommon)
    (x1 y1 z1 x2 y2 z2 : ℚ) (hvis : entity_invisible e = false) :
    output_LINE v false e
        ⟨⟨D.num x1, D.num y1, D.num z1⟩, ⟨D.num x2, D.num y2, D.num z2⟩,
         ⟨D.num 0, D.num 0, D.num 1⟩⟩
      = some (Frag.pathLine (D.num (x1 - v.model_xmin))
          (D.num (v.page_height - (y1 - v.model_ymin)))
          (D.num (x2 - v.model_xmin))
          (D.num (v.page_height - (y2 - v.model_ymin))))
    ∧ output_LINE v true e
        ⟨⟨D.num x1, D.num y1, D.num z1⟩, ⟨D.num x2, D.num y2, D.num z2⟩,
         ⟨D.num 0, D.num 0, D.num 1⟩⟩
      = some (Frag.pathLine (D.num x1) (D.num y1) (D.num x2) (D.num y2)) := by
  constructor <;>
    simp [output_LINE, isnan_3BD, D.isnan, hvis, transform_OCS,
      transform_X, transform_Y, HSub.hSub, Sub.sub, D.sub]

/-- Witness for C1 at a concrete input: viewport `xmin = 1`, `ymin = 2`,
`page_height = 30`; LINE from `(3,4,0)` to `(10,8,0)`. -/
theorem c1_line_viewport_transform_witness :
    entity_invisible ⟨false, none⟩ = false ∧
    (output_LINE ⟨1, 2, 30⟩ false ⟨false, none⟩
        ⟨⟨D.num 3, D.num 4, D.num 0⟩, ⟨D.num 10, D.num 8, D.num 0⟩,
         ⟨D.num 0, D.num 0, D.num 1⟩⟩
      = some (Frag.pathLine (D.num (3 - 1)) (D.num (30 - (4 - 2)))
          (D.num (10 - 1)) (D.num (30 - (8 - 2))))
    ∧ output_LINE ⟨1, 2, 30⟩ true ⟨false, none⟩
        ⟨⟨D.num 3, D.num 4, D.num 0⟩, ⟨D.num 10, D.num 8, D.num 0⟩,
         ⟨D.num 0, D.num 0, D.num 1⟩⟩
      = some (Frag.pathLine (D.num 3) (D.num 4) (D.num 10) (D.num 8))) :=
  ⟨by decide, c1_line_viewport_transform ⟨1, 2, 30⟩ ⟨false, none⟩
      3 4 0 10 8 0 (by decide)⟩

/-- The exact value of the C `double` constant `M_PI`
(3.14159265358979311599… = 884279719003555 · 2⁻⁴⁸). -/
def MPI : ℚ := 884279719003555 / 281474976710656

/-- The resolved block header an INSERT points at: its `absolute_ref` handle
and the header's `base_pt`.  In the C code this requires
`insert->block_header`, its `handleref.value` and its `obj` to all be
non-null; those three conditions are collapsed into the outer `Option`
(`none` = unresolved, the "WRONG INSERT" comment path).  The inner
`Option` is `none` when the resolved object is not a `BLOCK_HEADER`
(the silent-return path). -/
structure BlockHeaderRef where
  absolute_ref : Nat
  base_pt : Pt3
deriving DecidableEq, Repr

/-- `Dwg_Entity_INSERT`: insertion point, extrusion, rotation (radians),
per-axis scale and the block-header reference (see `BlockHeaderRef` for
the two `Option` layers). -/
structure InsertEnt where
  ins_pt : Pt3
  extrusion : Pt3
  rotation : D
  scale : Pt3
  block_header : Option (Option BlockHeaderRef)
deriving DecidableEq, Repr

/-- dwg2SVG.c `output_INSERT`.  Visibility first; an unresolved block
header emits the `WRONG INSERT` comment; a resolved non-BLOCK_HEADER
object returns silently; NaN guards; then either the
`matrix(sx 0 0 -sy tx ty)` form when `fabs(rotation) < 0.0001` or the
`translate rotate scale` form otherwise, with
`tx = ins_pt.x − sx·base.x − model_xmin` and
`ty = page_height − ins_pt.y + sy·base.y + model_ymin`. -/
def output_INSERT (v : View) (e : EntityCommon) (ins : InsertEnt) :
    Option Frag :=
  if entity_invisible e then none
  else
    match ins.block_header with
    | none => some Frag.wrongInsert
    | some none => none
    | some (some bh) =>
      if isnan_3BD ins.ins_pt || isnan_3BD ins.extrusion
          || ins.rotation.isnan || isnan_3BD ins.scale then none
      else
        let ip := transform_OCS ins.ins_pt ins.extrusion
        let rotation_deg := (D.num (180 / MPI) * ins.rotation).neg
        let sx := ins.scale.x
        let sy := ins.scale.y
        let tx := ip.x - sx * bh.base_pt.x - D.num v.model_xmin
        let ty := D.num v.page_height - ip.y + sy * bh.base_pt.y
                    + D.num v.model_ymin
        if ins.rotation.absLt (1/10000) then
          some (Frag.useMat sx sy.neg tx ty bh.absolute_ref)
        else
          some (Frag.useTRS tx ty rotation_deg sx sy.neg bh.absolute_ref)

/-- C2.  A visible INSERT with resolved block header, NaN-free attributes
and rotation approximately 0 (`|R| < 0.0001`) emits a `<use>` carrying
`matrix(sx, 0, 0, −sy, tx, ty)` with `tx = I.x − sx·B.x − xmin` and
`ty = page_height − I.y + sy·B.y + ymin`, where `I` is the OCS-projected
insertion point (extrusion `(0,0,1)`, under which `I = ins_pt`) and `B`
the block's base point. -/
theorem c2_insert_matrix (v : View) (e : EntityCommon)
    (ix iy iz sx sy sz rot bx bY bz : ℚ) (ref : Nat)
    (hvis : entity_invisible e = false) (hrot : |rot| < 1/10000) :
    output_INSERT v e
        { ins_pt := ⟨D.num ix, D.num iy, D.num iz⟩
          extrusion := ⟨D.num 0, D.num 0, D.num 1⟩
          rotation := D.num rot
          scale := ⟨D.num sx, D.num sy, D.num sz⟩
          block_header := some (some ⟨ref, ⟨D.num bx, D.num bY, D.num bz⟩⟩) }
      = some (Frag.useMat (D.num sx) (D.num (-sy))
          (D.num (ix - sx * bx - v.model_xmin))
          (D.num (v.page_height - iy + sy * bY + v.model_ymin)) ref) := by
  have habs : (D.num rot).absLt (1/10000) = true := by
    simpa [D.absLt] using hrot
  simp only [output_INSERT]
  simp [hvis, habs, isnan_3BD, D.isnan, transform_OCS, HSub.hSub, Sub.sub,
    D.sub, HAdd.hAdd, Add.add, D.add, HMul.hMul, Mul.mul, D.mul, D.neg]
  simpa using habs

/-- Witness for C2: viewport `xmin = 1`, `ymin = 2`, `page_height = 30`;
INSERT at `(10, 10, 0)`, scale `(2, 3, 1)`, rotation `0`, block base point
`(5, 6, 0)`, handle `77`. -/
theorem c2_insert_matrix_witness :
    (entity_invisible ⟨false, none⟩ = false ∧ |(0 : ℚ)| < 1/10000) ∧
    output_INSERT ⟨1, 2, 30⟩ ⟨false, none⟩
        { ins_pt := ⟨D.num 10, D.num 10, D.num 0⟩
          extrusion := ⟨D.num 0, D.num 0, D.num 1⟩
          rotation := D.num 0
          scale := ⟨D.num 2, D.num 3, D.num 1⟩
          block_header := some (some ⟨77, ⟨D.num 5, D.num 6, D.num 0⟩⟩) }
      = some (Frag.useMat (D.num 2) (D.num (-3))
          (D.num (10 - 2 * 5 - 1)) (D.num (30 - 10 + 3 * 6 + 2)) 77) :=
  ⟨⟨by decide, by norm_num⟩,
   c2_insert_matrix ⟨1, 2, 30⟩ ⟨false, none⟩ 10 10 0 2 3 1 0 5 6 0 77
     (by decide) (by norm_num)⟩

/-- C3, evaluated at the failing input.  The entity lineweight code 23
decodes through the fixed table to 211 (= 2.11 mm).  The claim requires a
stroke width of 2.11 px, but `entity_lweight` computes
`(int)(211 * 0.001) = 0` and then clamps to the 0.1 px minimum: the code
divides by 1000 instead of by 100 (the table is in 100ths of a
millimetre) and truncates the result to an `int`, so every standard
lineweight (all ≤ 211) collapses to 0.1 px. -/
theorem c3_lweight_truncation_bug :
    dxf_cvt_lweight 23 = 211 ∧
    entity_lweight 23 none = 1/10 ∧
    entity_lweight 23 none ≠ 211/100 := by
  refine ⟨by decide, by with_unfolding_all decide, ?_⟩
  intro h
  rw [show entity_lweight 23 none = 1/10 from by with_unfolding_all decide]
    at h
  norm_num at h

/-- `Dwg_Entity_CIRCLE`: center, radius, extrusion. -/
structure CircleEnt where
  center : Pt3
  radius : D
  extrusion : Pt3
deriving DecidableEq, Repr

/-- dwg2SVG.c `output_CIRCLE`: NaN-guard center, extrusion and radius and
visibility; OCS-project the center; emit `<circle cx cy r>`.  There is no
test on the value of the radius. -/
def output_CIRCLE (v : View) (inBlock : Bool) (e : EntityCommon)
    (c : CircleEnt) : Option Frag :=
  if isnan_3BD c.center || isnan_3BD c.extrusion || c.radius.isnan
      || entity_invisible e then none
  else
    let center := transform_OCS c.center c.extrusion
    some (Frag.circle (transform_X v inBlock center.x)
      (transform_Y v inBlock center.y) c.radius)

/-- `Dwg_Entity_SOLID`: four 2D corners and the extrusion. -/
structure SolidEnt where
  corner1 : Pt2
  corner2 : Pt2
  corner3 : Pt2
  corner4 : Pt2
  extrusion : Pt3
deriving DecidableEq, Repr

/-- dwg2SVG.c `output_SOLID`: NaN-guard the four corners and visibility,
OCS-project each corner, and emit a `<polygon>` whose points are, in
order, the transforms of corners 1, 2, 3, 4. -/
def output_SOLID (v : View) (inBlock : Bool) (e : EntityCommon)
    (s : SolidEnt) : Option Frag :=
  if isnan_2BD s.corner1 || isnan_2BD s.corner2 || isnan_2BD s.corner3
      || isnan_2BD s.corner4 || entity_invisible e then none
  else
    let c1 := transform_OCS_2d s.corner1 s.extrusion
    let c2 := transform_OCS_2d s.corner2 s.extrusion
    let c3 := transform_OCS_2d s.corner3 s.extrusion
    let c4 := transform_OCS_2d s.corner4 s.extrusion
    some (Frag.polygon
      [⟨transform_X v inBlock c1.x, transform_Y v inBlock c1.y⟩,
       ⟨transform_X v inBlock c2.x, transform_Y v inBlock c2.y⟩,
       ⟨transform_X v inBlock c3.x, transform_Y v inBlock c3.y⟩,
       ⟨transform_X v inBlock c4.x, transform_Y v inBlock c4.y⟩])

/-- `Dwg_Entity__3DFACE`: four 3D corners and the edge-invisibility
bitmask. -/
structure Face3dEnt where
  corner1 : Pt3
  corner2 : Pt3
  corner3 : Pt3
  corner4 : Pt3
  invis_flags : Nat
deriving DecidableEq, Repr

/-- dwg2SVG.c `output_3DFACE`: NaN-guard the four corners and visibility.
With a nonzero `invis_flags` bitmask, emit a `<path>` whose segment
toward corner `k+1` is a move (invisible edge) or a line according to bit
`k`, closing back to corner 1 under bit 3; otherwise emit a `<polygon>`
of the corners in order 1, 2, 3, 4.  The coordinates are written raw (no
OCS projection and no viewport transform), exactly as in the source. -/
def output_3DFACE (e : EntityCommon) (f : Face3dEnt) : Option Frag :=
  if isnan_3BD f.corner1 || isnan_3BD f.corner2 || isnan_3BD f.corner3
      || isnan_3BD f.corner4 || entity_invisible e then none
  else if f.invis_flags ≠ 0 then
    some (Frag.path
      [PCmd.move f.corner1.x f.corner1.y,
       (if f.invis_flags &&& 1 ≠ 0 then PCmd.move else PCmd.lineTo)
         f.corner2.x f.corner2.y,
       (if f.invis_flags &&& 2 ≠ 0 then PCmd.move else PCmd.lineTo)
         f.corner3.x f.corner3.y,
       (if f.invis_flags &&& 4 ≠ 0 then PCmd.move else PCmd.lineTo)
         f.corner4.x f.corner4.y,
       (if f.invis_flags &&& 8 ≠ 0 then PCmd.move else PCmd.lineTo)
         f.corner1.x f.corner1.y])
  else
    some (Frag.polygon
      [⟨f.corner1.x, f.corner1.y⟩, ⟨f.corner2.x, f.corner2.y⟩,
       ⟨f.corner3.x, f.corner3.y⟩, ⟨f.corner4.x, f.corner4.y⟩])

/-- C4 counterexample.  A visible, NaN-free SOLID with distinct corners
`(0,0) (1,0) (1,1) (0,1)` (extrusion `(0,0,1)`, viewport `xmin = 0`,
`ymin = 0`, `page_height = 1`) emits its corners in the order 1,2,3,4;
the claimed order 1,2,4,3 would swap the last two points, and the two
polygons differ. -/
theorem c4_counterexample_solid_order :
    output_SOLID ⟨0, 0, 1⟩ false ⟨false, none⟩
        ⟨⟨D.num 0, D.num 0⟩, ⟨D.num 1, D.num 0⟩, ⟨D.num 1, D.num 1⟩,
         ⟨D.num 0, D.num 1⟩, ⟨D.num 0, D.num 0, D.num 1⟩⟩
      = some (Frag.polygon
          [⟨D.num 0, D.num 1⟩, ⟨D.num 1, D.num 1⟩, ⟨D.num 1, D.num 0⟩,
           ⟨D.num 0, D.num 0⟩]) ∧
    output_SOLID ⟨0, 0, 1⟩ false ⟨false, none⟩
        ⟨⟨D.num 0, D.num 0⟩, ⟨D.num 1, D.num 0⟩, ⟨D.num 1, D.num 1⟩,
         ⟨D.num 0, D.num 1⟩, ⟨D.num 0, D.num 0, D.num 1⟩⟩
      ≠ some (Frag.polygon
          [⟨D.num 0, D.num 1⟩, ⟨D.num 1, D.num 1⟩, ⟨D.num 0, D.num 0⟩,
           ⟨D.num 1, D.num 0⟩]) := by
  constructor <;> with_unfolding_all decide

/-- C4 as amended: visible, NaN-free SOLIDs (axis-aligned extrusion) and
3DFACEs without invisible-edge flags emit their four corners as a polygon
in the order 1, 2, 3, 4 — not 1, 2, 4, 3.  The SOLID corners go through
the viewport transform; the 3DFACE corners are written raw. -/
theorem c4_corner_order_1234 (v : View) (e : EntityCommon)
    (a1 b1 a2 b2 a3 b3 a4 b4 : ℚ) (p1 p2 p3 p4 : Pt3)
    (hvis : entity_invisible e = false)
    (h1 : isnan_3BD p1 = false) (h2 : isnan_3BD p2 = false)
    (h3 : isnan_3BD p3 = false) (h4 : isnan_3BD p4 = false) :
    output_SOLID v false e
        ⟨⟨D.num a1, D.num b1⟩, ⟨D.num a2, D.num b2⟩, ⟨D.num a3, D.num b3⟩,
         ⟨D.num a4, D.num b4⟩, ⟨D.num 0, D.num 0, D.num 1⟩⟩
      = some (Frag.polygon
          [⟨D.num (a1 - v.model_xmin), D.num (v.page_height - (b1 - v.model_ymin))⟩,
           ⟨D.num (a2 - v.model_xmin), D.num (v.page_height - (b2 - v.model_ymin))⟩,
           ⟨D.num (a3 - v.model_xmin), D.num (v.page_height - (b3 - v.model_ymin))⟩,
           ⟨D.num (a4 - v.model_xmin), D.num (v.page_height - (b4 - v.model_ymin))⟩]) ∧
    output_3DFACE e ⟨p1, p2, p3, p4, 0⟩
      = some (Frag.polygon
          [⟨p1.x, p1.y⟩, ⟨p2.x, p2.y⟩, ⟨p3.x, p3.y⟩, ⟨p4.x, p4.y⟩]) := by
  constructor
  · simp [output_SOLID, isnan_2BD, D.isnan, hvis, transform_OCS_2d,
      transform_X, transform_Y, HSub.hSub, Sub.sub, D.sub]
  · simp [output_3DFACE, h1, h2, h3, h4, hvis]

/-- Witness for C4's amended theorem at concrete corners. -/
theorem c4_corner_order_1234_witness :
    (entity_invisible ⟨false, none⟩ = false ∧
     isnan_3BD ⟨D.num 0, D.num 0, D.num 0⟩ = false) ∧
    (output_SOLID ⟨0, 0, 1⟩ false ⟨false, none⟩
        ⟨⟨D.num 0, D.num 0⟩, ⟨D.num 1, D.num 0⟩, ⟨D.num 1, D.num 1⟩,
         ⟨D.num 0, D.num 1⟩, ⟨D.num 0, D.num 0, D.num 1⟩⟩
      = some (Frag.polygon
          [⟨D.num (0 - 0), D.num (1 - (0 - 0))⟩,
           ⟨D.num (1 - 0), D.num (1 - (0 - 0))⟩,
           ⟨D.num (1 - 0), D.num (1 - (1 - 0))⟩,
           ⟨D.num (0 - 0), D.num (1 - (1 - 0))⟩]) ∧
     output_3DFACE ⟨false, none⟩
        ⟨⟨D.num 0, D.num 0, D.num 0⟩, ⟨D.num 2, D.num 0, D.num 0⟩,
         ⟨D.num 2, D.num 2, D.num 0⟩, ⟨D.num 0, D.num 2, D.num 0⟩, 0⟩
      = some (Frag.polygon
          [⟨D.num 0, D.num 0⟩, ⟨D.num 2, D.num 0⟩, ⟨D.num 2, D.num 2⟩,
           ⟨D.num 0, D.num 2⟩])) :=
  ⟨⟨by decide, by decide⟩,
   c4_corner_order_1234 ⟨0, 0, 1⟩ ⟨false, none⟩ 0 0 1 0 1 1 0 1
     ⟨D.num 0, D.num 0, D.num 0⟩ ⟨D.num 2, D.num 0, D.num 0⟩
     ⟨D.num 2, D.num 2, D.num 0⟩ ⟨D.num 0, D.num 2, D.num 0⟩
     (by decide) (by decide) (by decide) (by decide) (by decide)⟩

/-- C6 counterexample.  A visible CIRCLE with radius 0 (center `(1,2,0)`,
extrusion `(0,0,1)`, viewport `xmin = 0`, `ymin = 0`, `page_height = 10`)
is not skipped: a circle element with `r = 0` is emitted. -/
theorem c6_counterexample_radius0 :
    output_CIRCLE ⟨0, 0, 10⟩ false ⟨false, none⟩
        ⟨⟨D.num 1, D.num 2, D.num 0⟩, D.num 0, ⟨D.num 0, D.num 0, D.num 1⟩⟩
      ≠ none ∧
    output_CIRCLE ⟨0, 0, 10⟩ false ⟨false, none⟩
        ⟨⟨D.num 1, D.num 2, D.num 0⟩, D.num 0, ⟨D.num 0, D.num 0, D.num 1⟩⟩
      = some (Frag.circle (D.num 1) (D.num 8) (D.num 0)) := by
  constructor <;> with_unfolding_all decide

/-- C6 as amended: a CIRCLE whose extrusion (or center, or radius)
contains NaN is skipped, but a CIRCLE with radius 0 is not skipped — when
the NaN guards pass and the entity is visible, a circle element with
`r = 0` is emitted. -/
theorem c6_circle_skip_rules (v : View) (ib : Bool) (e : EntityCommon)
    (c : CircleEnt) :
    (isnan_3BD c.extrusion = true → output_CIRCLE v ib e c = none) ∧
    (c.radius = D.num 0 → isnan_3BD c.center = false →
      isnan_3BD c.extrusion = false → entity_invisible e = false →
      output_CIRCLE v ib e c ≠ none) := by
  constructor
  · intro h
    simp [output_CIRCLE, h]
  · intro hr hc he hv
    simp [output_CIRCLE, hr, hc, he, hv, D.isnan]

/-- Witness for C6's amended theorem: a NaN-extrusion circle is skipped
and a radius-0 circle is emitted. -/
theorem c6_circle_skip_rules_witness :
    (isnan_3BD ⟨D.nan, D.num 0, D.num 1⟩ = true ∧
     output_CIRCLE ⟨0, 0, 10⟩ false ⟨false, none⟩
        ⟨⟨D.num 1, D.num 2, D.num 0⟩, D.num 3, ⟨D.nan, D.num 0, D.num 1⟩⟩
       = none) ∧
    output_CIRCLE ⟨0, 0, 10⟩ false ⟨false, none⟩
        ⟨⟨D.num 1, D.num 2, D.num 0⟩, D.num 0, ⟨D.num 0, D.num 0, D.num 1⟩⟩
      ≠ none :=
  ⟨⟨by decide,
    (c6_circle_skip_rules ⟨0, 0, 10⟩ false ⟨false, none⟩
      ⟨⟨D.num 1, D.num 2, D.num 0⟩, D.num 3, ⟨D.nan, D.num 0, D.num 1⟩⟩).1
      (by decide)⟩,
   (c6_circle_skip_rules ⟨0, 0, 10⟩ false ⟨false, none⟩
      ⟨⟨D.num 1, D.num 2, D.num 0⟩, D.num 0, ⟨D.num 0, D.num 0, D.num 1⟩⟩).2
      (by decide) (by decide) (by decide) (by decide)⟩

/-- `Dwg_Entity_LWPOLYLINE`: the point array (as returned by
`dwg_ent_lwpline_get_points`), the flag word (bit 9 = closed) and the
extrusion.  The `error` out-parameters of the accessors are modelled as
always clear (allocation failure excluded). -/
structure LwpolyEnt where
  points : List Pt2
  flag : Nat
  extrusion : Pt3
deriving DecidableEq, Repr

/-- dwg2SVG.c `output_LWPOLYLINE`: skip when invisible or when there are no
points; skip the whole entity when the first point or the extrusion is
NaN; otherwise emit `M` for the first point and `L` for each later
point, skipping (`continue`) any later point that is NaN, and append `Z`
when bit 9 of the flag is set. -/
def output_LWPOLYLINE (v : View) (inBlock : Bool) (e : EntityCommon)
    (p : LwpolyEnt) : Option (List PCmd) :=
  if entity_invisible e then none
  else
    match p.points with
    | [] => none
    | p0 :: rest =>
      if isnan_2pt p0 || isnan_3BD p.extrusion then none
      else
        let pt0 := transform_OCS_2d p0 p.extrusion
        some (PCmd.move (transform_X v inBlock pt0.x)
            (transform_Y v inBlock pt0.y)
          :: rest.filterMap (fun pj =>
              if isnan_2BD pj then none
              else
                let pt := transform_OCS_2d pj p.extrusion
                some (PCmd.lineTo (transform_X v inBlock pt.x)
                  (transform_Y v inBlock pt.y)))
          ++ (if p.flag &&& 512 ≠ 0 then [PCmd.close] else []))

/-- A `VERTEX_2D` owned by a POLYLINE_2D: its flag (bit 4 = spline frame
control point) and its point. -/
structure Vtx2D where
  flag : Nat
  point : Pt2
deriving DecidableEq, Repr

/-- `Dwg_Entity_POLYLINE_2D`: the owned vertex references, the flag word
(bit 0 = closed) and the extrusion.  A vertex reference that does not
resolve to a `VERTEX_2D` is modelled as `none` (the C loop `continue`s on
it). -/
structure Poly2dEnt where
  vertex : List (Option Vtx2D)
  flag : Nat
  extrusion : Pt3
deriving DecidableEq, Repr

/-- The vertex loop of `output_POLYLINE_2D`: `first` tracks whether an `M`
has been emitted yet; unresolved vertices, spline-frame control points
(flag bit 4) and NaN points are skipped without consuming `first`. -/
def poly2d_cmds (v : View) (inBlock : Bool) (ext : Pt3) :
    List (Option Vtx2D) → Bool → List PCmd
  | [], _ => []
  | none :: rest, first => poly2d_cmds v inBlock ext rest first
  | some vx :: rest, first =>
    if vx.flag &&& 16 ≠ 0 then poly2d_cmds v inBlock ext rest first
    else if isnan_2BD vx.point then poly2d_cmds v inBlock ext rest first
    else
      let pt := transform_OCS_2d vx.point ext
      (if first then PCmd.move (transform_X v inBlock pt.x)
          (transform_Y v inBlock pt.y)
        else PCmd.lineTo (transform_X v inBlock pt.x)
          (transform_Y v inBlock pt.y))
        :: poly2d_cmds v inBlock ext rest false

/-- dwg2SVG.c `output_POLYLINE_2D`: skip when invisible, when the extrusion
is NaN, or when no vertices are owned; otherwise walk the vertices (see
`poly2d_cmds`) and append `Z` when bit 0 of the flag is set. -/
def output_POLYLINE_2D (v : View) (inBlock : Bool) (e : EntityCommon)
    (p : Poly2dEnt) : Option (List PCmd) :=
  if entity_invisible e then none
  else if isnan_3BD p.extrusion then none
  else if p.vertex.isEmpty then none
  else
    some (poly2d_cmds v inBlock p.extrusion p.vertex true
      ++ (if p.flag &&& 1 ≠ 0 then [PCmd.close] else []))

/-- One point of a HATCH polyline path (`Dwg_HATCH_PolylinePath`). -/
structure PolylinePathPt where
  point : Pt2
  bulge : D
deriving DecidableEq, Repr

/-- A HATCH path in polyline form (`Dwg_HATCH_Path` with `flag & 2`):
its points, the `bulges_present` flag and the `closed` flag. -/
structure HatchPath where
  polyline_paths : List PolylinePathPt
  bulges_present : Bool
  closed : Bool
deriving DecidableEq, Repr

/-- dwg2SVG.c `output_bulge_arc`: chord/sagitta/radius computation for a
bulged polyline segment, emitting `A r,r 0 large,sweep x2,y2`.  NaN
inputs propagate into the emitted radius (there is no NaN guard in this
function). -/
def output_bulge_arc (v : View) (inBlock : Bool) (x1 y1 x2 y2 bulge : D) :
    PCmd :=
  let dx := x2 - x1
  let dy := y2 - y1
  let chord := D.sqrtD (dx * dx + dy * dy)
  let sagitta := bulge.fabs * chord.div (D.num 2)
  let radius := ((chord * chord).div (D.num 4) + sagitta * sagitta).div
    (D.num 2 * sagitta)
  PCmd.arcTo radius radius (bulge.absGt 1) bulge.gtZero
    (transform_X v inBlock x2) (transform_Y v inBlock y2)

/-- The indexed loop of the polyline branch of `output_hatch_path_data`:
`prev` is `paths[j-1]` (present exactly when `j > 0`, whether or not that
point was NaN-skipped).  A NaN point is skipped; a non-NaN point at
`j = 0` emits `M`; later points emit a bulge arc from `prev` when bulges
are present and `|prev.bulge| > 1e-6`, else `L`. -/
def hatch_poly_cmds (v : View) (inBlock : Bool) (bp : Bool) :
    List PolylinePathPt → Option PolylinePathPt → List PCmd
  | [], _ => []
  | pp :: rest, prev =>
    if isnan_2BD pp.point then hatch_poly_cmds v inBlock bp rest (some pp)
    else
      (match prev with
        | none => PCmd.move (transform_X v inBlock pp.point.x)
            (transform_Y v inBlock pp.point.y)
        | some pr =>
          if bp && pr.bulge.absGt (1/1000000) then
            output_bulge_arc v inBlock pr.point.x pr.point.y
              pp.point.x pp.point.y pr.bulge
          else PCmd.lineTo (transform_X v inBlock pp.point.x)
            (transform_Y v inBlock pp.point.y))
        :: hatch_poly_cmds v inBlock bp rest (some pp)

/-- The polyline branch (`flag & 2` with `polyline_paths` non-null) of
dwg2SVG.c `output_hatch_path_data` (the branch the claim cites): the
point loop of `hatch_poly_cmds`, then, when the path is closed and
non-empty, a closing bulge arc from the last point back to the first
(when bulges are present and `|last.bulge| > 1e-6`) or a `Z`.  The
segment branch of the C function (curve-type dispatch) needs
trigonometric arithmetic and is not part of this model. -/
def output_hatch_polyline_path (v : View) (inBlock : Bool)
    (path : HatchPath) : List PCmd :=
  let body := hatch_poly_cmds v inBlock path.bulges_present
    path.polyline_paths none
  match path.polyline_paths with
  | [] => body
  | first :: _ =>
    if path.closed then
      body ++
        (match (first :: path.polyline_paths.tail).getLast? with
          | none => [PCmd.close]
          | some last =>
            if path.bulges_present && last.bulge.absGt (1/1000000) then
              [output_bulge_arc v inBlock last.point.x last.point.y
                first.point.x first.point.y last.bulge]
            else [PCmd.close])
    else body

/-- A path command carries no NaN payload. -/
def PCmd.nanFree : PCmd → Bool
  | .move x y => !x.isnan && !y.isnan
  | .lineTo x y => !x.isnan && !y.isnan
  | .arcTo rx ry _ _ x y => !rx.isnan && !ry.isnan && !x.isnan && !y.isnan
  | .close => true

/-- `transform_X` of a finite value is finite. -/
theorem transform_X_nanFree (v : View) (ib : Bool) (x : D)
    (h : x.isnan = false) : (transform_X v ib x).isnan = false := by
  cases ib <;> cases x <;>
    simp_all [transform_X, D.isnan, HSub.hSub, Sub.sub, D.sub]

/-- `transform_Y` of a finite value is finite. -/
theorem transform_Y_nanFree (v : View) (ib : Bool) (y : D)
    (h : y.isnan = false) : (transform_Y v ib y).isnan = false := by
  cases ib <;> cases y <;>
    simp_all [transform_Y, D.isnan, HSub.hSub, Sub.sub, D.sub]

/-- The OCS projection of a finite 2D point is finite in both
coordinates. -/
theorem transform_OCS_2d_nanFree (p : Pt2) (ext : Pt3)
    (hx : p.x.isnan = false) (hy : p.y.isnan = false) :
    (transform_OCS_2d p ext).x.isnan = false ∧
    (transform_OCS_2d p ext).y.isnan = false := by
  unfold transform_OCS_2d
  split
  · exact ⟨hx, hy⟩
  · split
    · refine ⟨?_, hy⟩
      cases hpx : p.x <;> simp_all [D.neg, D.isnan]
    · exact ⟨hx, hy⟩

/-- Every command emitted by `output_LWPOLYLINE` is NaN-free. -/
theorem output_LWPOLYLINE_nanFree (v : View) (ib : Bool) (e : EntityCommon)
    (p : LwpolyEnt) (cmds : List PCmd)
    (h : output_LWPOLYLINE v ib e p = some cmds) :
    ∀ c ∈ cmds, c.nanFree = true := by
  obtain ⟨pts, flag, ext⟩ := p
  rcases pts with _ | ⟨p0, rest⟩
  · simp [output_LWPOLYLINE] at h
  · simp only [output_LWPOLYLINE] at h
    split at h
    · simp at h
    · split at h
      · simp at h
      · rename_i hguard
        simp only [Bool.or_eq_true, not_or, Bool.not_eq_true] at hguard
        have hx0 : p0.x.isnan = false := by
          have := hguard.1
          simp [isnan_2pt] at this
          exact this.1
        have hy0 : p0.y.isnan = false := by
          have := hguard.1
          simp [isnan_2pt] at this
          exact this.2
        rcases Option.some.inj h with rfl
        intro c hc
        rcases List.mem_cons.mp hc with rfl | hc
        · have ho := transform_OCS_2d_nanFree p0 ext hx0 hy0
          simp [PCmd.nanFree, transform_X_nanFree v ib _ ho.1,
            transform_Y_nanFree v ib _ ho.2]
        · rcases List.mem_append.mp hc with hc | hc
          · rcases List.mem_filterMap.mp hc with ⟨a, ha, hfa⟩
            split at hfa
            · simp at hfa
            · rename_i hnn
              rcases Option.some.inj hfa with rfl
              simp only [Bool.not_eq_true] at hnn
              have hax : a.x.isnan = false := by
                simp [isnan_2BD] at hnn; exact hnn.1
              have hay : a.y.isnan = false := by
                simp [isnan_2BD] at hnn; exact hnn.2
              have ho := transform_OCS_2d_nanFree a ext hax hay
              simp [PCmd.nanFree, transform_X_nanFree v ib _ ho.1,
                transform_Y_nanFree v ib _ ho.2]
          · split at hc
            · rcases List.mem_singleton.mp hc with rfl
              rfl
            · simp at hc

/-- Every command emitted by the POLYLINE_2D vertex loop is NaN-free. -/
theorem poly2d_cmds_nanFree (v : View) (ib : Bool) (ext : Pt3) :
    ∀ (l : List (Option Vtx2D)) (first : Bool) (c : PCmd),
      c ∈ poly2d_cmds v ib ext l first → c.nanFree = true := by
  intro l
  induction l with
  | nil =>
    intro first c hc
    simp [poly2d_cmds] at hc
  | cons hd tl ih =>
    intro first c hc
    rcases hd with _ | vx
    · exact ih first c (by simpa [poly2d_cmds] using hc)
    · rw [poly2d_cmds] at hc
      split at hc
      · exact ih first c hc
      · split at hc
        · exact ih first c hc
        · rename_i hflag hnn
          rcases List.mem_cons.mp hc with rfl | hc
          · have hax : vx.point.x.isnan = false := by
              simp [isnan_2BD] at hnn
              exact hnn.1
            have hay : vx.point.y.isnan = false := by
              simp [isnan_2BD] at hnn
              exact hnn.2
            have ho := transform_OCS_2d_nanFree vx.point ext hax hay
            cases first <;>
              simp [PCmd.nanFree, transform_X_nanFree v ib _ ho.1,
                transform_Y_nanFree v ib _ ho.2]
          · exact ih false c hc

/-- Every command emitted by `output_POLYLINE_2D` is NaN-free. -/
theorem output_POLYLINE_2D_nanFree (v : View) (ib : Bool)
    (e : EntityCommon) (p : Poly2dEnt) (cmds : List PCmd)
    (h : output_POLYLINE_2D v ib e p = some cmds) :
    ∀ c ∈ cmds, c.nanFree = true := by
  unfold output_POLYLINE_2D at h
  split at h
  · simp at h
  · split at h
    · simp at h
    · split at h
      · simp at h
      · rcases Option.some.inj h with rfl
        intro c hc
        rcases List.mem_append.mp hc with hc | hc
        · exact poly2d_cmds_nanFree v ib p.extrusion p.vertex true c hc
        · split at hc
          · rcases List.mem_singleton.mp hc with rfl
            rfl
          · simp at hc

/-- C5 counterexample.  A visible LWPOLYLINE with points
`(0,0), (NaN,5), (2,2)` (extrusion `(0,0,1)`, viewport `xmin = 0`,
`ymin = 0`, `page_height = 10`) has a NaN coordinate attribute, yet the
renderer does not skip the entity: it emits a path, with only the NaN
point dropped. -/
theorem c5_counterexample_lwpolyline_not_skipped :
    output_LWPOLYLINE ⟨0, 0, 10⟩ false ⟨false, none⟩
        ⟨[⟨D.num 0, D.num 0⟩, ⟨D.nan, D.num 5⟩, ⟨D.num 2, D.num 2⟩], 0,
         ⟨D.num 0, D.num 0, D.num 1⟩⟩
      = some [PCmd.move (D.num 0) (D.num 10),
              PCmd.lineTo (D.num 2) (D.num 8)] ∧
    output_LWPOLYLINE ⟨0, 0, 10⟩ false ⟨false, none⟩
        ⟨[⟨D.num 0, D.num 0⟩, ⟨D.nan, D.num 5⟩, ⟨D.num 2, D.num 2⟩], 0,
         ⟨D.num 0, D.num 0, D.num 1⟩⟩
      ≠ none := by
  constructor <;> with_unfolding_all decide

/-- C5 as amended.  Entity-level NaN guards (the extrusion or the first
point of an LWPOLYLINE) skip the whole entity; a NaN in a later point of
an LWPOLYLINE or POLYLINE_2D skips only that point, and those two
emitters consequently never write a NaN coordinate; a hatch polyline path
with bulges, however, can write a NaN arc radius when the point before a
segment is NaN. -/
theorem c5_nan_pointwise_skips (v : View) (ib : Bool) (e : EntityCommon) :
    (∀ (p0 : Pt2) (rest : List Pt2) (flag : Nat) (ext : Pt3),
      (isnan_2pt p0 || isnan_3BD ext) = true →
      output_LWPOLYLINE v ib e ⟨p0 :: rest, flag, ext⟩ = none) ∧
    (∀ (p : LwpolyEnt) (cmds : List PCmd),
      output_LWPOLYLINE v ib e p = some cmds →
      ∀ c ∈ cmds, c.nanFree = true) ∧
    (∀ (p : Poly2dEnt) (cmds : List PCmd),
      output_POLYLINE_2D v ib e p = some cmds →
      ∀ c ∈ cmds, c.nanFree = true) ∧
    (∃ (path : HatchPath) (c : PCmd),
      c ∈ output_hatch_polyline_path v ib path ∧ c.nanFree = false) := by
  refine ⟨?_, ?_, ?_, ?_⟩
  · intro p0 rest flag ext hg
    simp only [output_LWPOLYLINE, hg]
    split <;> rfl
  · intro p cmds h
    exact output_LWPOLYLINE_nanFree v ib e p cmds h
  · intro p cmds h
    exact output_POLYLINE_2D_nanFree v ib e p cmds h
  · refine ⟨⟨[⟨⟨D.num 0, D.num 0⟩, D.num 1⟩, ⟨⟨D.nan, D.num 0⟩, D.num 1⟩,
        ⟨⟨D.num 2, D.num 0⟩, D.num 0⟩], true, false⟩,
      PCmd.arcTo D.nan D.nan false true (transform_X v ib (D.num 2))
        (transform_Y v ib (D.num 0)), ?_, ?_⟩
    · simp only [output_hatch_polyline_path, hatch_poly_cmds,
        output_bulge_arc]
      simp [isnan_2BD, D.isnan, D.absGt, HSub.hSub, Sub.sub, D.sub,
        HMul.hMul, Mul.mul, D.mul, D.sqrtD, D.fabs, D.div,
        HAdd.hAdd, Add.add, D.add, D.gtZero]
      norm_num
    · simp [PCmd.nanFree, D.isnan]

/-- Witness for C5's amended theorem: the entity-level guard at a concrete
NaN first point, the NaN-free outputs at the counterexample inputs, and
the hatch NaN emission, all at viewport `(0, 0, 10)`. -/
theorem c5_nan_pointwise_skips_witness :
    (isnan_2pt ⟨D.nan, D.num 1⟩ || isnan_3BD ⟨D.num 0, D.num 0, D.num 1⟩)
      = true ∧
    output_LWPOLYLINE ⟨0, 0, 10⟩ false ⟨false, none⟩
        ⟨[⟨D.nan, D.num 1⟩, ⟨D.num 2, D.num 2⟩], 0,
         ⟨D.num 0, D.num 0, D.num 1⟩⟩
      = none ∧
    (∃ (path : HatchPath) (c : PCmd),
      c ∈ output_hatch_polyline_path ⟨0, 0, 10⟩ false path ∧
      c.nanFree = false) :=
  ⟨by decide,
   (c5_nan_pointwise_skips ⟨0, 0, 10⟩ false ⟨false, none⟩).1
     ⟨D.nan, D.num 1⟩ [⟨D.num 2, D.num 2⟩] 0 ⟨D.num 0, D.num 0, D.num 1⟩
     (by decide),
   (c5_nan_pointwise_skips ⟨0, 0, 10⟩ false ⟨false, none⟩).2.2.2⟩

/-- Lower-casing of a name, modelling the C `tolower`-based comparisons. -/
def strToLower (s : String) : String := String.map Char.toLower s

/-- The `strcasecmp (escaped, "*Model_Space") == 0` test of
`output_BLOCK_HEADER`. -/
def isModelSpaceName (s : String) : Bool :=
  strToLower s == "*model_space"

/-- The `strncasecmp_prefix (escaped, "*Paper_Space") == 0` test of
`output_BLOCK_HEADER` (case-insensitive leading-string match). -/
def isPaperSpaceName (s : String) : Bool :=
  (strToLower s).startsWith "*paper_space"

/-- The renderable entity union, one constructor per `fixedtype` arm of
`output_object` that this development models, plus the arms that emit
nothing: `SEQEND` and `VIEWPORT` (counted as zero entities) and `unknown`
for every other type (the silently ignored default arm).  Arms of the C
switch not needed by any claim (TEXT, ATTDEF, ARC, POINT, ELLIPSE, RAY,
XLINE, HATCH, IMAGE) are not modelled; all of them return 1 like the
modelled geometry arms, so `unknown` faithfully covers only the
default/SEQEND/VIEWPORT behaviour. -/
inductive Entity where
  | line (e : EntityCommon) (l : LineEnt)
  | circle (e : EntityCommon) (c : CircleEnt)
  | solid (e : EntityCommon) (s : SolidEnt)
  | face3d (e : EntityCommon) (f : Face3dEnt)
  | lwpolyline (e : EntityCommon) (p : LwpolyEnt)
  | polyline2d (e : EntityCommon) (p : Poly2dEnt)
  | insert (e : EntityCommon) (i : InsertEnt)
  | viewport
  | seqend
  | unknown
deriving DecidableEq, Repr

/-- dwg2SVG.c `output_object`: dispatch on the entity type, returning the
`num` contribution (1 for every handled graphical type, even when the
emitter skipped the entity; 0 for SEQEND/VIEWPORT and unhandled types)
and the emitted fragments. -/
def output_object (v : View) (inBlock : Bool) (ent : Entity) :
    Nat × List Frag :=
  match ent with
  | .line e l => (1, (output_LINE v inBlock e l).toList)
  | .circle e c => (1, (output_CIRCLE v inBlock e c).toList)
  | .solid e s => (1, (output_SOLID v inBlock e s).toList)
  | .face3d e f => (1, (output_3DFACE e f).toList)
  | .lwpolyline e p =>
    (1, match output_LWPOLYLINE v inBlock e p with
        | none => []
        | some cmds => [Frag.path cmds])
  | .polyline2d e p =>
    (1, match output_POLYLINE_2D v inBlock e p with
        | none => []
        | some cmds => [Frag.path cmds])
  | .insert e i => (1, (output_INSERT v e i).toList)
  | .viewport => (0, [])
  | .seqend => (0, [])
  | .unknown => (0, [])

/-- The owned-entity loop of `output_BLOCK_HEADER`
(`get_first_owned_entity` / `get_next_owned_entity`): accumulate the
`num` sum and the concatenated fragments. -/
def run_entities (v : View) (inBlock : Bool) : List Entity → Nat × List Frag
  | [] => (0, [])
  | ent :: rest =>
    let r := output_object v inBlock ent
    let rr := run_entities v inBlock rest
    (r.1 + rr.1, r.2 ++ rr.2)

/-- A `BLOCK_HEADER` as consumed by `output_BLOCK_HEADER`: its name (`none`
models a null `hdr->name`, under which the whole naming block of the C
function is skipped), its `absolute_ref` and its owned entities.  The
HTML escaping of the name and the `--`→`__` comment-sanitising are
identity on every character that the eligibility comparisons inspect, so
the name is modelled unescaped; the comment fragment carries it
verbatim. -/
structure BlockHeader where
  name : Option String
  absolute_ref : Nat
  entities : List Entity
deriving DecidableEq, Repr

/-- dwg2SVG.c `output_BLOCK_HEADER`.  The input flag `inBlock0` is the
value of the file-scope `in_block_definition` on entry; the first result
component is its value on return.  A null reference returns immediately.
A named block whose name is neither `*Model_Space` nor a `*Paper_Space`
variant (case-insensitive) opens `<g id="symbol-<absolute_ref>">`, sets
the flag for the owned-entity loop, and clears it after closing the
group; any other block leaves the flag untouched and emits its entities
with the entry value. -/
def output_BLOCK_HEADER (v : View) (inBlock0 : Bool)
    (ob : Option BlockHeader) : Bool × Nat × List Frag :=
  match ob with
  | none => (inBlock0, 0, [])
  | some hdr =>
    let is_g :=
      match hdr.name with
      | none => false
      | some nm => !isModelSpaceName nm && !isPaperSpaceName nm
    let ib := if is_g then true else inBlock0
    let res := run_entities v ib hdr.entities
    let pre : List Frag :=
      match hdr.name with
      | none => []
      | some nm =>
        if is_g then [Frag.gOpen hdr.absolute_ref, Frag.comment nm]
        else [Frag.comment nm]
    let post : List Frag := if is_g then [Frag.gClose] else []
    (if is_g then false else inBlock0, res.1, pre ++ res.2 ++ post)

/-- The body-selection portion of dwg2SVG.c `output_SVG` (lines between the
prologue and the `<defs>` pass): when not in mspace-only mode, emit paper
space and record its entity count; when that count is zero, emit model
space. -/
def svg_body (v : View) (mspaceOnly : Bool) (ps ms : Option BlockHeader) :
    List Frag :=
  let pres :=
    if mspaceOnly then (false, 0, ([] : List Frag))
    else output_BLOCK_HEADER v false ps
  let mres :=
    if pres.2.1 = 0 then output_BLOCK_HEADER v false ms
    else (false, 0, ([] : List Frag))
  pres.2.2 ++ mres.2.2

/-- Geometry-bearing fragments: everything except comments and the group
markers (the `WRONG INSERT` marker is printed as an HTML comment). -/
def Frag.isGeom : Frag → Bool
  | .comment _ => false
  | .gOpen _ => false
  | .gClose => false
  | .wrongInsert => false
  | _ => true

/-- An entity whose `output_object` count is zero emits no fragments. -/
theorem output_object_zero_no_frags (v : View) (ib : Bool) (ent : Entity)
    (h : (output_object v ib ent).1 = 0) :
    (output_object v ib ent).2 = [] := by
  cases ent <;> simp_all [output_object]

/-- A block whose entity loop counts zero emits no fragments from the
loop. -/
theorem run_entities_zero_no_frags (v : View) (ib : Bool) :
    ∀ l : List Entity, (run_entities v ib l).1 = 0 →
      (run_entities v ib l).2 = [] := by
  intro l
  induction l with
  | nil => intro _; rfl
  | cons ent rest ih =>
    intro h
    rw [run_entities] at h ⊢
    have h1 : (output_object v ib ent).1 = 0 := by omega
    have h2 : (run_entities v ib rest).1 = 0 := by omega
    simp [output_object_zero_no_frags v ib ent h1, ih h2]

/-- The fragments of a block header whose count is zero contain no
geometry. -/
theorem output_BLOCK_HEADER_zero_no_geom (v : View) (b : Bool)
    (ob : Option BlockHeader)
    (h : (output_BLOCK_HEADER v b ob).2.1 = 0) :
    ∀ f ∈ (output_BLOCK_HEADER v b ob).2.2, f.isGeom = false := by
  match ob with
  | none => intro f hf; simp [output_BLOCK_HEADER] at hf
  | some ⟨nameOpt, ref, ents⟩ =>
    rcases nameOpt with _ | nm
    · intro f hf
      simp only [output_BLOCK_HEADER] at h hf
      rw [run_entities_zero_no_frags v _ ents h] at hf
      simp at hf
    · intro f hf
      simp only [output_BLOCK_HEADER] at h hf
      rw [run_entities_zero_no_frags v _ ents h] at hf
      by_cases hg : (!isModelSpaceName nm && !isPaperSpaceName nm) = true
      · simp only [hg, if_true, List.append_nil, List.nil_append] at hf
        simp at hf
        rcases hf with rfl | rfl | rfl <;> rfl
      · simp only [hg, if_false, List.append_nil, List.nil_append] at hf
        simp [hg] at hf
        subst hf
        rfl

/-- C7.  With mspace-only off: when paper space counts at least one
entity, the body is paper space's fragments alone; when paper space
counts zero entities, the body is paper space's (geometry-free) fragments
followed by model space's fragments, and every geometry fragment of the
body belongs to model space's output. -/
theorem c7_paper_space_fallback (v : View) (ps ms : Option BlockHeader) :
    ((output_BLOCK_HEADER v false ps).2.1 ≠ 0 →
      svg_body v false ps ms = (output_BLOCK_HEADER v false ps).2.2) ∧
    ((output_BLOCK_HEADER v false ps).2.1 = 0 →
      svg_body v false ps ms
        = (output_BLOCK_HEADER v false ps).2.2
          ++ (output_BLOCK_HEADER v false ms).2.2) ∧
    ((output_BLOCK_HEADER v false ps).2.1 = 0 →
      ∀ f ∈ svg_body v false ps ms, f.isGeom = true →
        f ∈ (output_BLOCK_HEADER v false ms).2.2) := by
  refine ⟨?_, ?_, ?_⟩
  · intro h
    simp [svg_body, h]
  · intro h
    simp [svg_body, h]
  · intro h f hf hgeom
    simp only [svg_body, if_false, Bool.false_eq_true, ite_false, h,
      if_true] at hf
    rcases List.mem_append.mp hf with hp | hm
    · exact absurd hgeom
        (by rw [output_BLOCK_HEADER_zero_no_geom v false ps h f hp]; simp)
    · exact hm

/-- Witness for C7 at a concrete model: paper space is a `*Paper_Space`
block containing only a VIEWPORT (count 0); model space is
`*Model_Space` with one LINE; the body's fragments are the paper-space
comment followed by model space's comment and line. -/
theorem c7_paper_space_fallback_witness :
    (output_BLOCK_HEADER ⟨0, 0, 10⟩ false
        (some ⟨some "*Paper_Space", 1, [Entity.viewport]⟩)).2.1 = 0 ∧
    svg_body ⟨0, 0, 10⟩ false
        (some ⟨some "*Paper_Space", 1, [Entity.viewport]⟩)
        (some ⟨some "*Model_Space", 2,
          [Entity.line ⟨false, none⟩
            ⟨⟨D.num 0, D.num 0, D.num 0⟩, ⟨D.num 1, D.num 1, D.num 0⟩,
             ⟨D.num 0, D.num 0, D.num 1⟩⟩]⟩)
      = (output_BLOCK_HEADER ⟨0, 0, 10⟩ false
          (some ⟨some "*Paper_Space", 1, [Entity.viewport]⟩)).2.2
        ++ (output_BLOCK_HEADER ⟨0, 0, 10⟩ false
          (some ⟨some "*Model_Space", 2,
            [Entity.line ⟨false, none⟩
              ⟨⟨D.num 0, D.num 0, D.num 0⟩, ⟨D.num 1, D.num 1, D.num 0⟩,
               ⟨D.num 0, D.num 0, D.num 1⟩⟩]⟩)).2.2 :=
  ⟨by with_unfolding_all decide,
   (c7_paper_space_fallback ⟨0, 0, 10⟩
      (some ⟨some "*Paper_Space", 1, [Entity.viewport]⟩)
      (some ⟨some "*Model_Space", 2,
        [Entity.line ⟨false, none⟩
          ⟨⟨D.num 0, D.num 0, D.num 0⟩, ⟨D.num 1, D.num 1, D.num 0⟩,
           ⟨D.num 0, D.num 0, D.num 1⟩⟩]⟩)).2.1
     (by with_unfolding_all decide)⟩

/-- Recogniser for the `<g id="symbol-...">` opener. -/
def Frag.isGOpen : Frag → Bool
  | .gOpen _ => true
  | _ => false

/-- No entity emitter produces a symbol-group opener. -/
theorem output_object_no_gOpen (v : View) (ib : Bool) (ent : Entity) :
    ∀ f ∈ (output_object v ib ent).2, f.isGOpen = false := by
  intro f hf
  cases ent <;> simp only [output_object] at hf
  case line e l =>
    rw [Option.mem_toList] at hf
    unfold output_LINE at hf
    split at hf
    · simp at hf
    · rcases Option.some.inj hf.symm with rfl
      rfl
  case circle e c =>
    rw [Option.mem_toList] at hf
    unfold output_CIRCLE at hf
    split at hf
    · simp at hf
    · rcases Option.some.inj hf.symm with rfl
      rfl
  case solid e s =>
    rw [Option.mem_toList] at hf
    unfold output_SOLID at hf
    split at hf
    · simp at hf
    · rcases Option.some.inj hf.symm with rfl
      rfl
  case face3d e f3 =>
    rw [Option.mem_toList] at hf
    unfold output_3DFACE at hf
    split at hf
    · simp at hf
    · split at hf <;> rcases Option.some.inj hf.symm with rfl <;> rfl
  case lwpolyline e p =>
    rcases hout : output_LWPOLYLINE v ib e p with _ | cmds <;>
      rw [hout] at hf
    · simp at hf
    · rcases List.mem_singleton.mp hf with rfl
      rfl
  case polyline2d e p =>
    rcases hout : output_POLYLINE_2D v ib e p with _ | cmds <;>
      rw [hout] at hf
    · simp at hf
    · rcases List.mem_singleton.mp hf with rfl
      rfl
  case insert e i =>
    rw [Option.mem_toList] at hf
    unfold output_INSERT at hf
    split at hf
    · simp at hf
    · split at hf
      · rcases Option.some.inj hf.symm with rfl
        rfl
      · simp at hf
      · split at hf
        · simp at hf
        · split at hf <;> rcases Option.some.inj hf.symm with rfl <;> rfl
  case viewport => simp at hf
  case seqend => simp at hf
  case unknown => simp at hf

/-- No fragment of the owned-entity loop is a symbol-group opener. -/
theorem run_entities_no_gOpen (v : View) (ib : Bool) :
    ∀ (l : List Entity) (f : Frag), f ∈ (run_entities v ib l).2 →
      f.isGOpen = false := by
  intro l
  induction l with
  | nil => intro f hf; simp [run_entities] at hf
  | cons ent rest ih =>
    intro f hf
    rw [run_entities] at hf
    rcases List.mem_append.mp hf with hf | hf
    · exact output_object_no_gOpen v ib ent f hf
    · exact ih f hf

/-- C10.  Every call to `output_BLOCK_HEADER` that starts with the
`in_block_definition` flag clear (as every call in the program does)
returns with it clear; and a block header whose name is null never opens
a `<g id="symbol-...">` group — its owned entities are emitted exactly as
the entity loop produces them with the flag clear, i.e. with the normal
viewport transform. -/
theorem c10_block_header_flag (v : View) :
    (∀ ob : Option BlockHeader, (output_BLOCK_HEADER v false ob).1 = false) ∧
    (∀ (ref : Nat) (ents : List Entity),
      (output_BLOCK_HEADER v false (some ⟨none, ref, ents⟩)).2.2
        = (run_entities v false ents).2 ∧
      ∀ f ∈ (output_BLOCK_HEADER v false (some ⟨none, ref, ents⟩)).2.2,
        f.isGOpen = false) := by
  constructor
  · intro ob
    match ob with
    | none => rfl
    | some hdr =>
      simp only [output_BLOCK_HEADER]
      split <;> rfl
  · intro ref ents
    constructor
    · simp [output_BLOCK_HEADER]
    · intro f hf
      simp only [output_BLOCK_HEADER] at hf
      simp at hf
      exact run_entities_no_gOpen v false ents f hf

/-- Witness for C10: a nameless block with one LINE, at viewport
`(0, 0, 10)`: the flag comes back clear, the fragments are the plain
viewport-transformed line, and no group is opened. -/
theorem c10_block_header_flag_witness :
    (output_BLOCK_HEADER ⟨0, 0, 10⟩ false
        (some ⟨some "MY_BLOCK", 7,
          [Entity.line ⟨false, none⟩
            ⟨⟨D.num 0, D.num 0, D.num 0⟩, ⟨D.num 1, D.num 1, D.num 0⟩,
             ⟨D.num 0, D.num 0, D.num 1⟩⟩]⟩)).1 = false ∧
    (output_BLOCK_HEADER ⟨0, 0, 10⟩ false
        (some ⟨none, 7,
          [Entity.line ⟨false, none⟩
            ⟨⟨D.num 0, D.num 0, D.num 0⟩, ⟨D.num 1, D.num 1, D.num 0⟩,
             ⟨D.num 0, D.num 0, D.num 1⟩⟩]⟩)).2.2
      = (run_entities ⟨0, 0, 10⟩ false
          [Entity.line ⟨false, none⟩
            ⟨⟨D.num 0, D.num 0, D.num 0⟩, ⟨D.num 1, D.num 1, D.num 0⟩,
             ⟨D.num 0, D.num 0, D.num 1⟩⟩]).2 :=
  ⟨(c10_block_header_flag ⟨0, 0, 10⟩).1
     (some ⟨some "MY_BLOCK", 7,
       [Entity.line ⟨false, none⟩
         ⟨⟨D.num 0, D.num 0, D.num 0⟩, ⟨D.num 1, D.num 1, D.num 0⟩,
          ⟨D.num 0, D.num 0, D.num 1⟩⟩]⟩),
   ((c10_block_header_flag ⟨0, 0, 10⟩).2 7
     [Entity.line ⟨false, none⟩
       ⟨⟨D.num 0, D.num 0, D.num 0⟩, ⟨D.num 1, D.num 1, D.num 0⟩,
        ⟨D.num 0, D.num 0, D.num 1⟩⟩]).1⟩

/-- `DWG_ERR_CRITICAL` (= `DWG_ERR_CLASSESNOTFOUND`, 1 << 7) from dwg.h:
parser errors at or above this value are critical. -/
def DWG_ERR_CRITICAL : Nat := 128

/-- `DWG_ERR_INVALIDDWG` (1 << 11) from dwg.h. -/
def DWG_ERR_INVALIDDWG : Nat := 2048

/-- The environment of one `dwg_svg_render_file` call: what `dwg_read_file`
returns for the given path, and the bytes `output_SVG` writes through the
buffer writer when it runs.  File I/O and parsing are outside the model;
this pair is exactly the interface the rendering code consumes.
Allocation is modelled as always succeeding (the OOM paths of the buffer
writer and of `dwg_to_svg` are resource conditions outside the model). -/
structure FileRenderEnv where
  parse_error : Nat
  rendered : String
deriving DecidableEq, Repr

/-- dwg_svg_api.c `dwg_svg_render_file`: read the file; run `output_SVG`
(writing into the sink) only when the parse error is below
`DWG_ERR_CRITICAL`; return the error when critical, else 0.  The result
is the return code paired with the bytes handed to the sink. -/
def dwg_svg_render_file (env : FileRenderEnv) : Nat × String :=
  if env.parse_error ≥ DWG_ERR_CRITICAL then (env.parse_error, "")
  else (0, env.rendered)

/-- dwg_svg_api.c `dwg_svg_render_data`: a null model is rejected with
`DWG_ERR_INVALIDDWG` and nothing is written; otherwise `output_SVG` runs
and the function returns 0. -/
def dwg_svg_render_data (dwgNull : Bool) (rendered : String) :
    Nat × String :=
  if dwgNull then (DWG_ERR_INVALIDDWG, "")
  else (0, rendered)

/-- The observable outcome of `dwg_to_svg` / `dwg_data_to_svg`: the return
code and what was stored through the `svg_out` / `svg_len` out-pointers —
`none` when the function returned without writing them (the null-argument
early return), otherwise the stored pair (`none` in the first component
models storing a null pointer). -/
structure OutWrite where
  rc : Nat
  written : Option (Option String × Nat)
deriving DecidableEq, Repr

/-- dwg_svg_api.c `dwg_to_svg`: reject null arguments with
`DWG_ERR_INVALIDDWG` (out-parameters untouched); on a nonzero render
code free the buffer, store NULL and 0 and return the code; on success
replace an empty buffer by a fresh empty string and store buffer and
length. -/
def dwg_to_svg (pathNull outNull lenNull : Bool) (env : FileRenderEnv) :
    OutWrite :=
  if pathNull || outNull || lenNull then ⟨DWG_ERR_INVALIDDWG, none⟩
  else
    let r := dwg_svg_render_file env
    if r.1 ≠ 0 then ⟨r.1, some (none, 0)⟩
    else ⟨0, some (some r.2, r.2.length)⟩

/-- dwg_svg_api.c `dwg_data_to_svg`: same contract as `dwg_to_svg` over an
already-loaded model (`dwgNull` models a null `Dwg_Data` pointer). -/
def dwg_data_to_svg (dwgNull outNull lenNull : Bool) (rendered : String) :
    OutWrite :=
  if dwgNull || outNull || lenNull then ⟨DWG_ERR_INVALIDDWG, none⟩
  else
    let r := dwg_svg_render_data false rendered
    if r.1 ≠ 0 then ⟨r.1, some (none, 0)⟩
    else ⟨0, some (some r.2, r.2.length)⟩

/-- C8.  `dwg_to_svg` returns `INVALIDDWG` when any argument is null; with
valid arguments, any failure stores a null buffer and zero length along
with the nonzero code; a parse error at least `CRITICAL` propagates as
the return code with no SVG stored; a sub-critical parse error yields
return code 0 with the rendered SVG stored. -/
theorem c8_dwg_to_svg_errors (pN oN lN : Bool) (env : FileRenderEnv) :
    ((pN || oN || lN) = true →
      (dwg_to_svg pN oN lN env).rc = DWG_ERR_INVALIDDWG) ∧
    ((pN || oN || lN) = false → (dwg_to_svg pN oN lN env).rc ≠ 0 →
      (dwg_to_svg pN oN lN env).written = some (none, 0)) ∧
    ((pN || oN || lN) = false → env.parse_error ≥ DWG_ERR_CRITICAL →
      (dwg_to_svg pN oN lN env).rc = env.parse_error ∧
      (dwg_to_svg pN oN lN env).written = some (none, 0)) ∧
    ((pN || oN || lN) = false → env.parse_error < DWG_ERR_CRITICAL →
      (dwg_to_svg pN oN lN env).rc = 0 ∧
      (dwg_to_svg pN oN lN env).written
        = some (some env.rendered, env.rendered.length)) := by
  refine ⟨?_, ?_, ?_, ?_⟩
  · intro h
    simp [dwg_to_svg, h]
  · intro h hrc
    simp only [dwg_to_svg, h, Bool.false_eq_true, if_false] at hrc ⊢
    by_cases hcrit : env.parse_error ≥ DWG_ERR_CRITICAL
    · have : env.parse_error ≠ 0 := by
        intro h0
        rw [h0] at hcrit
        exact absurd hcrit (by norm_num [DWG_ERR_CRITICAL])
      simp [dwg_svg_render_file, hcrit, this]
    · simp [dwg_svg_render_file, hcrit] at hrc
  · intro h hcrit
    have : env.parse_error ≠ 0 := by
      intro h0
      rw [h0] at hcrit
      exact absurd hcrit (by norm_num [DWG_ERR_CRITICAL])
    simp [dwg_to_svg, h, dwg_svg_render_file, hcrit, this]
  · intro h hsub
    have : ¬env.parse_error ≥ DWG_ERR_CRITICAL := not_le.mpr hsub
    simp [dwg_to_svg, h, dwg_svg_render_file, this]

/-- Witness for C8: null path gives `INVALIDDWG`; a critical parse error
(4096 = `DWG_ERR_IOERROR`) propagates with NULL stored; a benign parse
error (1 = `DWG_ERR_WRONGCRC`) yields 0 and the rendered SVG. -/
theorem c8_dwg_to_svg_errors_witness :
    ((true || false || false) = true ∧
      (dwg_to_svg true false false ⟨0, "x"⟩).rc = DWG_ERR_INVALIDDWG) ∧
    ((false || false || false) = false ∧ 4096 ≥ DWG_ERR_CRITICAL ∧
      (dwg_to_svg false false false ⟨4096, "x"⟩).rc = 4096 ∧
      (dwg_to_svg false false false ⟨4096, "x"⟩).written
        = some (none, 0)) ∧
    ((1 : Nat) < DWG_ERR_CRITICAL ∧
      (dwg_to_svg false false false ⟨1, "x"⟩).rc = 0 ∧
      (dwg_to_svg false false false ⟨1, "x"⟩).written
        = some (some "x", "x".length)) :=
  ⟨⟨by decide, (c8_dwg_to_svg_errors true false false ⟨0, "x"⟩).1 (by decide)⟩,
   ⟨by decide, by decide,
    ((c8_dwg_to_svg_errors false false false ⟨4096, "x"⟩).2.2.1 (by decide)
      (by decide)).1,
    ((c8_dwg_to_svg_errors false false false ⟨4096, "x"⟩).2.2.1 (by decide)
      (by decide)).2⟩,
   ⟨by decide,
    ((c8_dwg_to_svg_errors false false false ⟨1, "x"⟩).2.2.2 (by decide)
      (by decide)).1,
    ((c8_dwg_to_svg_errors false false false ⟨1, "x"⟩).2.2.2 (by decide)
      (by decide)).2⟩⟩

/-- C9.  On return code 0, neither `dwg_to_svg` nor `dwg_data_to_svg`
stores a null buffer pointer: some string is always stored together with
its length, and when the renderer wrote no bytes that string is the empty
string with length 0. -/
theorem c9_success_nonnull_buffer (pN oN lN : Bool) (env : FileRenderEnv)
    (rendered : String) :
    ((dwg_to_svg pN oN lN env).rc = 0 →
      ∃ s : String, (dwg_to_svg pN oN lN env).written
        = some (some s, s.length)) ∧
    ((dwg_to_svg pN oN lN env).rc = 0 → env.rendered = "" →
      (dwg_to_svg pN oN lN env).written = some (some "", 0)) ∧
    ((dwg_data_to_svg pN oN lN rendered).rc = 0 →
      ∃ s : String, (dwg_data_to_svg pN oN lN rendered).written
        = some (some s, s.length)) ∧
    ((dwg_data_to_svg pN oN lN rendered).rc = 0 → rendered = "" →
      (dwg_data_to_svg pN oN lN rendered).written = some (some "", 0)) := by
  by_cases hn : (pN || oN || lN) = true
  · refine ⟨?_, ?_, ?_, ?_⟩ <;> intro h0 <;>
      simp [dwg_to_svg, dwg_data_to_svg, hn, DWG_ERR_INVALIDDWG] at h0
  · simp only [Bool.not_eq_true] at hn
    by_cases hcrit : env.parse_error ≥ DWG_ERR_CRITICAL
    · have hne : env.parse_error ≠ 0 := by
        intro h0
        rw [h0] at hcrit
        exact absurd hcrit (by norm_num [DWG_ERR_CRITICAL])
      refine ⟨?_, ?_, ?_, ?_⟩
      · intro h0
        simp [dwg_to_svg, hn, dwg_svg_render_file, hcrit, hne] at h0
      · intro h0
        simp [dwg_to_svg, hn, dwg_svg_render_file, hcrit, hne] at h0
      · intro _
        exact ⟨rendered, by simp [dwg_data_to_svg, hn, dwg_svg_render_data]⟩
      · intro _ hr
        subst hr
        simp [dwg_data_to_svg, hn, dwg_svg_render_data]
    · refine ⟨?_, ?_, ?_, ?_⟩
      · intro _
        exact ⟨env.rendered,
          by simp [dwg_to_svg, hn, dwg_svg_render_file, hcrit]⟩
      · intro _ hr
        simp [dwg_to_svg, hn, dwg_svg_render_file, hcrit, hr]
      · intro _
        exact ⟨rendered, by simp [dwg_data_to_svg, hn, dwg_svg_render_data]⟩
      · intro _ hr
        subst hr
        simp [dwg_data_to_svg, hn, dwg_svg_render_data]

/-- Witness for C9: a successful render that wrote nothing stores a
non-null empty string of length 0 through both entry points. -/
theorem c9_success_nonnull_buffer_witness :
    ((dwg_to_svg false false false ⟨0, ""⟩).rc = 0 ∧ ("" : String) = "" ∧
      (dwg_to_svg false false false ⟨0, ""⟩).written = some (some "", 0)) ∧
    ((dwg_data_to_svg false false false "").rc = 0 ∧
      (dwg_data_to_svg false false false "").written = some (some "", 0)) :=
  ⟨⟨by decide, rfl,
    (c9_success_nonnull_buffer false false false ⟨0, ""⟩ "").2.1
      (by decide) rfl⟩,
   ⟨by decide,
    (c9_success_nonnull_buffer false false false ⟨0, ""⟩ "").2.2.2
      (by decide) rfl⟩⟩
